import Mathlib

/-!
Shallow embedding of the FastAPI URL-monitoring service
(`app/services/monitor_service.py`, `app/routers/monitoring.py`,
`app/models/monitoring.py`) and proofs of the specification claims.

Modelling conventions:
* HTTP status codes are `Option Int` (Python `Optional[int]`).
* Latencies are `Option ℚ` (Python `Optional[float]`; the code performs no
  float-specific operations beyond arithmetic and `round`, so rationals are
  a faithful model).
* The SQLite/SQLAlchemy store is a `Store`: a list of rows plus the
  auto-increment primary-key counter.
* The network is abstracted by `ProbeOutcome`: the four mutually exclusive
  ways the `try`/`except` chain of `check_url` can terminate (the httpx call
  succeeds, raises `httpx.TimeoutException`, raises `httpx.RequestError`, or
  raises any other `Exception`).
-/

/-- Row of the `monitoring_results` table (`app/models/monitoring.py`). -/
structure MonitoringResult where
  id : Nat
  url : String
  status_code : Option Int
  response_time_ms : Option ℚ
  is_healthy : Bool
  error_message : Option String
  created_at : Nat
  deriving Repr, DecidableEq

/-- The database: persisted rows plus the auto-increment id counter
(`id = Column(Integer, primary_key=True)`). -/
structure Store where
  records : List MonitoringResult
  nextId : Nat
  deriving Repr, DecidableEq

/-- How the single `await client.get(url, follow_redirects=True)` attempt
inside `check_url` terminates: normally, or with one of the exception
classes caught by the three `except` clauses. -/
inductive ProbeOutcome where
  | success (status : Int) (latency : ℚ)
  | timeout
  | requestError (detail : String)
  | otherError (detail : String)
  deriving Repr, DecidableEq

namespace MonitorService

/-- `MonitorService.check_url`: returns
`(status_code, response_time_ms, error_message)`; every exception raised by
the attempt is converted by an `except` clause into a `(None, None, msg)`
tuple, so the function is total on probe outcomes. -/
def check_url : ProbeOutcome → Option Int × Option ℚ × Option String
  | .success status latency => (some status, some latency, none)
  | .timeout => (none, none, some "Request timeout (> 10 seconds)")
  | .requestError d => (none, none, some ("Request error: " ++ d))
  | .otherError d => (none, none, some ("Unexpected error: " ++ d))

/-- `MonitorService.is_healthy`: `None` is unhealthy, otherwise healthy iff
`200 <= status_code < 400`. -/
def is_healthy : Option Int → Bool
  | none => false
  | some status_code => decide (200 ≤ status_code ∧ status_code < 400)

/-- `MonitorService.monitor_and_save`: probe, classify, build the row, and
persist it (`db.add`; `db.commit`; `db.refresh` yields the auto-generated
id). `now` is the server timestamp `func.now()` assigns to `created_at`.
Returns the updated store and the persisted row. -/
def monitor_and_save (db : Store) (url : String) (outcome : ProbeOutcome)
    (now : Nat) : Store × MonitoringResult :=
  let probed := check_url outcome
  let status_code := probed.1
  let response_time_ms := probed.2.1
  let error_message := probed.2.2
  let healthy := is_healthy status_code
  let result : MonitoringResult :=
    { id := db.nextId
      url := url
      status_code := status_code
      response_time_ms := response_time_ms
      is_healthy := healthy
      error_message := error_message
      created_at := now }
  ({ records := db.records ++ [result], nextId := db.nextId + 1 }, result)

/-- `MonitorService.get_result_by_id`: first row whose primary key matches,
if any. -/
def get_result_by_id (db : Store) (result_id : Nat) : Option MonitoringResult :=
  db.records.find? (fun r => r.id = result_id)

end MonitorService

/-- `created_at` descending: the `order_by(MonitoringResult.created_at.desc())`
comparison used by every listing query. -/
def byCreatedAtDesc (a b : MonitoringResult) : Prop :=
  b.created_at ≤ a.created_at

instance : DecidableRel byCreatedAtDesc :=
  fun a b => Nat.decLe b.created_at a.created_at

instance : IsTotal MonitoringResult byCreatedAtDesc :=
  ⟨fun a b => Nat.le_total b.created_at a.created_at⟩

instance : IsTrans MonitoringResult byCreatedAtDesc :=
  ⟨fun _ _ _ h1 h2 => Nat.le_trans h2 h1⟩

/-- Rows sorted most-recent first, as produced by
`order_by(created_at.desc())`. -/
def sortByCreatedAtDesc (l : List MonitoringResult) : List MonitoringResult :=
  List.insertionSort byCreatedAtDesc l

namespace MonitorService

/-- `MonitorService.get_all_results`: count, compute
`offset = (page - 1) * page_size`, and query ordered by `created_at`
descending with `LIMIT page_size OFFSET offset`. Returns `(results, total)`. -/
def get_all_results (db : Store) (page : Nat) (page_size : Nat) :
    List MonitoringResult × Nat :=
  let total := db.records.length
  let offset := (page - 1) * page_size
  let results := ((sortByCreatedAtDesc db.records).drop offset).take page_size
  (results, total)

end MonitorService

/-- Python `round(x, 2)` helper: round-half-to-even to an integer. -/
def roundHalfEven (x : ℚ) : ℤ :=
  if Int.fract x < 1 / 2 then ⌊x⌋
  else if 1 / 2 < Int.fract x then ⌊x⌋ + 1
  else if ⌊x⌋ % 2 = 0 then ⌊x⌋ else ⌊x⌋ + 1

/-- Python `round(x, 2)`: round to 2 decimal places (banker's rounding). -/
def pyRound2 (x : ℚ) : ℚ := (roundHalfEven (x * 100) : ℚ) / 100

/-- Python `round(x, 2) if x else None` applied to an optional value: both
`None` and `0.0` are falsy, so a present `0.0` is reported as absent. -/
def pyTruthyRound2 : Option ℚ → Option ℚ
  | none => none
  | some x => if x = 0 then none else some (pyRound2 x)

/-- SQL `AVG` over the latency column restricted to non-null rows:
`NULL` when no row qualifies. -/
def listAvg : List ℚ → Option ℚ
  | [] => none
  | x :: xs => some ((x :: xs).sum / (x :: xs).length)

/-- SQL `MIN` over non-null latencies: `NULL` when no row qualifies. -/
def listMin : List ℚ → Option ℚ
  | [] => none
  | x :: xs =>
    match listMin xs with
    | none => some x
    | some m => some (min x m)

/-- SQL `MAX` over non-null latencies: `NULL` when no row qualifies. -/
def listMax : List ℚ → Option ℚ
  | [] => none
  | x :: xs =>
    match listMax xs with
    | none => some x
    | some m => some (max x m)

/-- SQL `GROUP BY url ORDER BY COUNT(url) DESC ... FIRST`: the url with the
highest occurrence count (first-seen order breaks ties); `NULL` iff there
are no rows. -/
def mostMonitoredUrl (records : List MonitoringResult) : Option String :=
  ((records.map (fun r => r.url)).dedup).foldl
    (fun acc u =>
      match acc with
      | none => some u
      | some best =>
          if (records.filter (fun r => r.url = u)).length >
              (records.filter (fun r => r.url = best)).length
          then some u else acc)
    none

/-- The `MonitoringStats` response schema (`app/schemas/monitoring.py`). -/
structure MonitoringStats where
  total_checks : Nat
  healthy_count : Nat
  unhealthy_count : Nat
  uptime_percentage : ℚ
  average_response_time_ms : Option ℚ
  fastest_response_ms : Option ℚ
  slowest_response_ms : Option ℚ
  most_monitored_url : Option String
  deriving Repr, DecidableEq

/-- The `PaginatedMonitorResponse` schema (`app/schemas/monitoring.py`). -/
structure PaginatedMonitorResponse where
  total : Nat
  page : Nat
  page_size : Nat
  total_pages : Nat
  results : List MonitoringResult
  deriving Repr, DecidableEq

/-- `total_pages = math.ceil(total / page_size) if total > 0 else 0`
(natural-number ceiling division). -/
def totalPages (total page_size : Nat) : Nat :=
  if 0 < total then (total + page_size - 1) / page_size else 0

/-- `GET /stats` handler `get_monitoring_stats`
(`app/routers/monitoring.py`). -/
def get_monitoring_stats (db : Store) : MonitoringStats :=
  let total_checks := db.records.length
  if total_checks = 0 then
    { total_checks := 0
      healthy_count := 0
      unhealthy_count := 0
      uptime_percentage := 0
      average_response_time_ms := none
      fastest_response_ms := none
      slowest_response_ms := none
      most_monitored_url := none }
  else
    let healthy_count := (db.records.filter (fun r => r.is_healthy)).length
    let unhealthy_count := total_checks - healthy_count
    let uptime_percentage := ((healthy_count : ℚ) / (total_checks : ℚ)) * 100
    let lats := db.records.filterMap (fun r => r.response_time_ms)
    { total_checks := total_checks
      healthy_count := healthy_count
      unhealthy_count := unhealthy_count
      uptime_percentage := pyRound2 uptime_percentage
      average_response_time_ms := pyTruthyRound2 (listAvg lats)
      fastest_response_ms := pyTruthyRound2 (listMin lats)
      slowest_response_ms := pyTruthyRound2 (listMax lats)
      most_monitored_url := mostMonitoredUrl db.records }

/-- `GET /results` handler `get_monitoring_results`: delegates to
`MonitorService.get_all_results` and wraps the pagination envelope. -/
def get_monitoring_results (db : Store) (page page_size : Nat) :
    PaginatedMonitorResponse :=
  let rt := MonitorService.get_all_results db page page_size
  { total := rt.2
    page := page
    page_size := page_size
    total_pages := totalPages rt.2 page_size
    results := rt.1 }

/-- `GET /results/filter/healthy` handler: same pagination over the rows
with `is_healthy == True`. -/
def get_healthy_results (db : Store) (page page_size : Nat) :
    PaginatedMonitorResponse :=
  let matching := db.records.filter (fun r => r.is_healthy)
  let offset := (page - 1) * page_size
  { total := matching.length
    page := page
    page_size := page_size
    total_pages := totalPages matching.length page_size
    results := ((sortByCreatedAtDesc matching).drop offset).take page_size }

/-- `GET /results/filter/unhealthy` handler: same pagination over the rows
with `is_healthy == False`. -/
def get_unhealthy_results (db : Store) (page page_size : Nat) :
    PaginatedMonitorResponse :=
  let matching := db.records.filter (fun r => !r.is_healthy)
  let offset := (page - 1) * page_size
  { total := matching.length
    page := page
    page_size := page_size
    total_pages := totalPages matching.length page_size
    results := ((sortByCreatedAtDesc matching).drop offset).take page_size }

/-- `url LIKE '%pat%'`, the filter produced by
`MonitoringResult.url.contains(url)`: substring containment on the
character sequence. -/
def strContainsSub (s pat : String) : Bool :=
  (List.range (s.data.length + 1)).any
    (fun i => List.isPrefixOf pat.data (s.data.drop i))

/-- `GET /results/search` handler `search_results_by_url`: same pagination
over the rows whose `url` contains the query substring. -/
def search_results_by_url (db : Store) (url : String) (page page_size : Nat) :
    PaginatedMonitorResponse :=
  let matching := db.records.filter (fun r => strContainsSub r.url url)
  let offset := (page - 1) * page_size
  { total := matching.length
    page := page
    page_size := page_size
    total_pages := totalPages matching.length page_size
    results := ((sortByCreatedAtDesc matching).drop offset).take page_size }

/-- `DELETE /results/{result_id}` handler `delete_monitoring_result`:
looks the row up; when absent reports not-found (HTTP 404) and leaves the
store unchanged; when present deletes that row (`db.delete(result)`;
`db.commit()`) and reports found (HTTP 204). -/
def delete_monitoring_result (db : Store) (result_id : Nat) :
    Store × Bool :=
  match MonitorService.get_result_by_id db result_id with
  | none => (db, false)
  | some _ =>
      ({ db with records := db.records.eraseP (fun r => r.id = result_id) },
       true)

/-- An API operation that changes the store: a `POST /monitor` check (with
its probe outcome and server timestamp) or a `DELETE /results/{id}`. -/
inductive Op where
  | monitor (url : String) (outcome : ProbeOutcome) (now : Nat)
  | delete (result_id : Nat)

/-- Apply one operation to the store. -/
def applyOp (db : Store) : Op → Store
  | .monitor url outcome now =>
      (MonitorService.monitor_and_save db url outcome now).1
  | .delete i => (delete_monitoring_result db i).1

/-- Run a sequence of operations. -/
def runOps (db : Store) : List Op → Store
  | [] => db
  | op :: ops => runOps (applyOp db op) ops

/-- The ids handed out by the store's auto-increment counter along an
operation sequence, in order of assignment. -/
def assignedIds (db : Store) : List Op → List Nat
  | [] => []
  | op :: ops =>
    match op with
    | .monitor _ _ _ => db.nextId :: assignedIds (applyOp db op) ops
    | .delete _ => assignedIds (applyOp db op) ops

/-- Store exhibiting Python's truthiness slip in the stats endpoint: one
successful check whose measured latency is exactly `0.0`. -/
def zeroLatencyStore : Store :=
  { records := [{ id := 1, url := "https://a.example", status_code := some 200,
                  response_time_ms := some 0, is_healthy := true,
                  error_message := none, created_at := 0 }],
    nextId := 2 }

/-- Well-formedness the database enforces on the store: primary keys are
pairwise distinct and below the auto-increment counter. -/
def Store.WF (db : Store) : Prop :=
  db.records.Pairwise (fun a b => a.id ≠ b.id) ∧
  ∀ r ∈ db.records, r.id < db.nextId

-- sanity examples (concrete evaluations of the embedded code)
example : MonitorService.is_healthy (some 200) = true := by decide
example : MonitorService.is_healthy (some 301) = true := by decide
example : MonitorService.is_healthy (some 404) = false := by decide
example : MonitorService.is_healthy none = false := by decide
example :
    MonitorService.check_url .timeout =
      (none, none, some "Request timeout (> 10 seconds)") := by rfl
example : strContainsSub "https://www.google.com" "google" = true := by decide
example : strContainsSub "https://example.com" "google" = false := by decide
example : pyRound2 (1234567 / 100000) = 1235 / 100 := by
  norm_num [pyRound2, roundHalfEven, Int.fract]

/-- C1: `is_healthy(None)` is `false`, and for every integer status code `c`,
`is_healthy(c)` is `true` iff `200 <= c < 400` (2xx and 3xx healthy; 4xx,
5xx and out-of-range integers unhealthy). -/
theorem C1_is_healthy_classifier :
    MonitorService.is_healthy none = false ∧
    ∀ c : Int,
      (MonitorService.is_healthy (some c) = true ↔ 200 ≤ c ∧ c < 400) := by
  refine ⟨rfl, fun c => ?_⟩
  simp [MonitorService.is_healthy]

/-- C2: `check_url` never raises past its own boundary: every probe outcome
is converted to a result tuple — success to `(status, latency, None)`,
timeout to `(None, None, "Request timeout (> 10 seconds)")`, transport
failure to `(None, None, "Request error: <detail>")` and any other failure
to `(None, None, "Unexpected error: <detail>")`. -/
theorem C2_check_url_total :
    (∀ s l, MonitorService.check_url (.success s l) = (some s, some l, none)) ∧
    MonitorService.check_url .timeout =
      (none, none, some "Request timeout (> 10 seconds)") ∧
    (∀ d, MonitorService.check_url (.requestError d) =
      (none, none, some ("Request error: " ++ d))) ∧
    (∀ d, MonitorService.check_url (.otherError d) =
      (none, none, some ("Unexpected error: " ++ d))) ∧
    ∀ o, (MonitorService.check_url o).1.isSome ∨
      (MonitorService.check_url o).2.2.isSome := by
  refine ⟨fun s l => rfl, rfl, fun d => rfl, fun d => rfl, fun o => ?_⟩
  cases o <;> simp [MonitorService.check_url]

/-- C3: every invocation of `monitor_and_save` appends exactly one record to
the store — for every probe outcome, failures included — and the persisted
record's `is_healthy` equals the classifier applied to the probed
`status_code`. -/
theorem C3_monitor_and_save_persists_one (db : Store) (url : String)
    (outcome : ProbeOutcome) (now : Nat) :
    (MonitorService.monitor_and_save db url outcome now).1.records =
      db.records ++ [(MonitorService.monitor_and_save db url outcome now).2] ∧
    (MonitorService.monitor_and_save db url outcome now).1.records.length =
      db.records.length + 1 ∧
    (MonitorService.monitor_and_save db url outcome now).2.is_healthy =
      MonitorService.is_healthy
        (MonitorService.monitor_and_save db url outcome now).2.status_code ∧
    (MonitorService.monitor_and_save db url outcome now).2.status_code =
      (MonitorService.check_url outcome).1 := by
  refine ⟨rfl, ?_, rfl, rfl⟩
  simp [MonitorService.monitor_and_save]

/-- C4: every record built by `monitor_and_save` satisfies the data-model
invariants: `response_time_ms` present iff `status_code` present; absent
`status_code` forces `is_healthy = false`; `error_message` present exactly
when `status_code` is absent. -/
theorem C4_record_invariants (db : Store) (url : String)
    (outcome : ProbeOutcome) (now : Nat) :
    ((MonitorService.monitor_and_save db url outcome now).2.response_time_ms.isSome
        ↔ (MonitorService.monitor_and_save db url outcome now).2.status_code.isSome) ∧
    ((MonitorService.monitor_and_save db url outcome now).2.status_code = none →
      (MonitorService.monitor_and_save db url outcome now).2.is_healthy = false) ∧
    ((MonitorService.monitor_and_save db url outcome now).2.error_message.isSome
        ↔ (MonitorService.monitor_and_save db url outcome now).2.status_code = none) := by
  cases outcome <;>
    simp [MonitorService.monitor_and_save, MonitorService.check_url,
      MonitorService.is_healthy]

/-- Witness for C4 at a concrete input: a timed-out probe persists an
unhealthy record with an error message and no latency. -/
theorem C4_record_invariants_witness :
    (MonitorService.monitor_and_save ⟨[], 1⟩ "https://a.example" .timeout 5).2.is_healthy
      = false ∧
    (MonitorService.monitor_and_save ⟨[], 1⟩ "https://a.example" .timeout 5).2.error_message.isSome
      = true :=
  ⟨(C4_record_invariants ⟨[], 1⟩ "https://a.example" .timeout 5).2.1 rfl,
   (C4_record_invariants ⟨[], 1⟩ "https://a.example" .timeout 5).2.2.mpr rfl⟩

/-- After erasing the row with primary key `i` from a list of rows with
pairwise-distinct ids, no row with primary key `i` remains. -/
lemma find?_eraseP_id_eq_none (i : Nat) :
    ∀ l : List MonitoringResult,
      l.Pairwise (fun a b => a.id ≠ b.id) →
      (l.eraseP (fun r => r.id = i)).find? (fun r => r.id = i) = none := by
  intro l hl
  induction l with
  | nil => rfl
  | cons a t ih =>
    obtain ⟨ha, ht⟩ := List.pairwise_cons.mp hl
    by_cases hai : a.id = i
    · rw [List.eraseP_cons_of_pos (by simp [hai])]
      refine List.find?_eq_none.mpr (fun x hx => ?_)
      simp only [decide_eq_true_eq]
      intro hxi
      exact ha x hx (hai.trans hxi.symm)
    · rw [List.eraseP_cons_of_neg (by simp [hai])]
      rw [List.find?_cons_of_neg _ (by simp [hai])]
      exact ih ht

/-- One API operation preserves store well-formedness. -/
lemma applyOp_WF (db : Store) (op : Op) (h : db.WF) : (applyOp db op).WF := by
  obtain ⟨hpw, hlt⟩ := h
  cases op with
  | monitor url outcome now =>
    constructor
    · refine List.pairwise_append.mpr ⟨hpw, by simp, ?_⟩
      intro a ha b hb
      rw [List.mem_singleton.mp hb]
      exact Nat.ne_of_lt (hlt a ha)
    · intro r hr
      rcases List.mem_append.mp hr with h' | h'
      · exact (hlt r h').trans (Nat.lt_succ_self _)
      · rw [List.mem_singleton.mp h']
        exact Nat.lt_succ_self _
  | delete i =>
    have hsub : (applyOp db (.delete i)).records.Sublist db.records := by
      rcases hh : MonitorService.get_result_by_id db i with _ | s <;>
        simp [applyOp, delete_monitoring_result, hh, List.eraseP_sublist]
    have hnid : (applyOp db (.delete i)).nextId = db.nextId := by
      rcases hh : MonitorService.get_result_by_id db i with _ | s <;>
        simp [applyOp, delete_monitoring_result, hh]
    exact ⟨hpw.sublist hsub, fun r hr => hnid ▸ hlt r (hsub.subset hr)⟩

/-- Every store reachable by running API operations from an empty store is
well-formed, so the primary-key hypothesis of the delete theorem holds on
every reachable store. -/
lemma runOps_WF (n : Nat) (ops : List Op) : (runOps ⟨[], n⟩ ops).WF := by
  have : ∀ (ops : List Op) (db : Store), db.WF → (runOps db ops).WF := by
    intro ops
    induction ops with
    | nil => exact fun db h => h
    | cons op ops ih => exact fun db h => ih _ (applyOp_WF db op h)
  exact this ops ⟨[], n⟩ ⟨by simp, by simp⟩

/-- C8: on a store whose rows carry pairwise-distinct primary keys, deleting
an existing id reports found, after which a lookup of that id reports
not-found and a second delete of the same id reports not-found; deleting a
never-existing id reports not-found and leaves the store unchanged. -/
theorem C8_delete_semantics (db : Store) (i : Nat)
    (hwf : db.records.Pairwise (fun a b => a.id ≠ b.id)) :
    ((MonitorService.get_result_by_id db i).isSome →
      (delete_monitoring_result db i).2 = true ∧
      MonitorService.get_result_by_id (delete_monitoring_result db i).1 i = none ∧
      (delete_monitoring_result (delete_monitoring_result db i).1 i).2 = false) ∧
    (MonitorService.get_result_by_id db i = none →
      delete_monitoring_result db i = (db, false)) := by
  constructor
  · intro h
    obtain ⟨r, hr⟩ := Option.isSome_iff_exists.mp h
    have hdel : delete_monitoring_result db i =
        ({ db with records := db.records.eraseP (fun r => r.id = i) }, true) := by
      simp [delete_monitoring_result, hr]
    have hnone :
        MonitorService.get_result_by_id (delete_monitoring_result db i).1 i = none := by
      rw [hdel]
      exact find?_eraseP_id_eq_none i db.records hwf
    have hmiss : ∀ d : Store, MonitorService.get_result_by_id d i = none →
        (delete_monitoring_result d i).2 = false := by
      intro d hn
      simp [delete_monitoring_result, hn]
    exact ⟨by rw [hdel], hnone, hmiss _ hnone⟩
  · intro h
    simp [delete_monitoring_result, h]

/-- Witness for C8: a one-record store; deleting id 1 reports found, a
repeat delete reports not-found, and the lookup afterwards is empty. -/
theorem C8_delete_semantics_witness :
    (delete_monitoring_result
      ⟨[{ id := 1, url := "https://a.example", status_code := some 200,
          response_time_ms := some 12, is_healthy := true,
          error_message := none, created_at := 0 }], 2⟩ 1).2 = true ∧
    MonitorService.get_result_by_id
      (delete_monitoring_result
        ⟨[{ id := 1, url := "https://a.example", status_code := some 200,
            response_time_ms := some 12, is_healthy := true,
            error_message := none, created_at := 0 }], 2⟩ 1).1 1 = none :=
  ⟨((C8_delete_semantics _ 1 (by simp)).1 (by decide)).1,
   ((C8_delete_semantics _ 1 (by simp)).1 (by decide)).2.1⟩

/-- One operation never decreases the auto-increment counter. -/
lemma nextId_le_applyOp (db : Store) (op : Op) :
    db.nextId ≤ (applyOp db op).nextId := by
  cases op with
  | monitor url outcome now =>
      simp [applyOp, MonitorService.monitor_and_save]
  | delete i =>
      rcases h : MonitorService.get_result_by_id db i with _ | r <;>
        simp [applyOp, delete_monitoring_result, h]

/-- Every id assigned along an operation sequence is at least the counter
value at the start of the sequence. -/
lemma assignedIds_lower_bound :
    ∀ (ops : List Op) (db : Store), ∀ j ∈ assignedIds db ops, db.nextId ≤ j := by
  intro ops
  induction ops with
  | nil => simp [assignedIds]
  | cons op ops ih =>
    intro db j hj
    cases op with
    | monitor url outcome now =>
      rcases (by simpa [assignedIds] using hj :
          j = db.nextId ∨ j ∈ assignedIds (applyOp db (.monitor url outcome now)) ops) with
        h | h
      · omega
      · exact (nextId_le_applyOp db _).trans (ih _ j h)
    | delete i =>
      have h : j ∈ assignedIds (applyOp db (.delete i)) ops := by
        simpa [assignedIds] using hj
      exact (nextId_le_applyOp db _).trans (ih _ j h)

/-- Ids assigned along an operation sequence are strictly increasing. -/
lemma assignedIds_strict_mono :
    ∀ (ops : List Op) (db : Store), (assignedIds db ops).Pairwise (· < ·) := by
  intro ops
  induction ops with
  | nil => intro db; simp [assignedIds]
  | cons op ops ih =>
    intro db
    cases op with
    | monitor url outcome now =>
      have hstep : (applyOp db (.monitor url outcome now)).nextId = db.nextId + 1 := rfl
      refine List.pairwise_cons.mpr ⟨fun j hj => ?_, ih _⟩
      have := assignedIds_lower_bound ops _ j hj
      omega
    | delete i =>
      simpa [assignedIds] using ih (applyOp db (.delete i))

/-- Every row in the store after an operation sequence either predates the
sequence or carries an id the counter assigned during it; rows are never
rewritten with a different id. -/
lemma runOps_record_ids :
    ∀ (ops : List Op) (db : Store) (r : MonitoringResult),
      r ∈ (runOps db ops).records →
      r ∈ db.records ∨ r.id ∈ assignedIds db ops := by
  intro ops
  induction ops with
  | nil => intro db r h; exact Or.inl h
  | cons op ops ih =>
    intro db r h
    rcases ih (applyOp db op) r h with h' | h'
    · cases op with
      | monitor url outcome now =>
        rcases List.mem_append.mp h' with h'' | h''
        · exact Or.inl h''
        · right
          have : r.id = db.nextId := by
            rw [List.mem_singleton.mp h'']
          simp [assignedIds, this]
      | delete i =>
        left
        have hsub : (applyOp db (.delete i)).records.Sublist db.records := by
          rcases hh : MonitorService.get_result_by_id db i with _ | s <;>
            simp [applyOp, delete_monitoring_result, hh, List.eraseP_sublist]
        exact hsub.subset h'
    · right
      cases op with
      | monitor url outcome now => simp [assignedIds]; right; exact h'
      | delete i => simpa [assignedIds] using h'

/-- C9: over every operation sequence the ids assigned at inserts are
strictly increasing (hence monotonic and collision-free), and every row in
the final store either predates the sequence or carries an id assigned by
the counter at its insert — a row's id never changes after insertion. -/
theorem C9_id_allocation (db : Store) (ops : List Op) :
    (assignedIds db ops).Pairwise (· < ·) ∧
    (∀ j ∈ assignedIds db ops, db.nextId ≤ j) ∧
    ∀ r ∈ (runOps db ops).records,
      r ∈ db.records ∨ r.id ∈ assignedIds db ops :=
  ⟨assignedIds_strict_mono ops db,
   assignedIds_lower_bound ops db,
   runOps_record_ids ops db⟩

/-- Witness for C9: from a fresh store with counter 5, two inserts assign
the strictly increasing ids 5 and 6. -/
theorem C9_id_allocation_witness :
    (assignedIds ⟨[], 5⟩
      [Op.monitor "https://a.example" .timeout 0,
       Op.monitor "https://b.example" (.success 200 12) 1]).Pairwise (· < ·) ∧
    5 ≤ 5 :=
  ⟨(C9_id_allocation ⟨[], 5⟩ _).1,
   (C9_id_allocation ⟨[], 5⟩
      [Op.monitor "https://a.example" .timeout 0,
       Op.monitor "https://b.example" (.success 200 12) 1]).2.1 5 (by decide)⟩

/-- Characterization of `totalPages`: it is the least page count covering
all records (`ceil(total / page_size)`), and 0 for an empty set. -/
lemma totalPages_bounds (t ps : Nat) (hps : 1 ≤ ps) :
    t ≤ totalPages t ps * ps ∧
    (0 < t → (totalPages t ps - 1) * ps < t) ∧
    (t = 0 → totalPages t ps = 0) := by
  by_cases h0 : 0 < t
  · have htp : totalPages t ps = (t + ps - 1) / ps := by
      simp [totalPages, h0]
    have hdm := Nat.div_add_mod (t + ps - 1) ps
    have hmod : (t + ps - 1) % ps < ps := Nat.mod_lt _ (by omega)
    refine ⟨?_, fun _ => ?_, fun ht => by omega⟩
    · rw [htp, Nat.mul_comm]
      generalize hk : ps * ((t + ps - 1) / ps) = k at hdm ⊢
      omega
    · rw [htp, Nat.sub_mul, one_mul, Nat.mul_comm]
      generalize hk : ps * ((t + ps - 1) / ps) = k at hdm ⊢
      omega
  · have ht : t = 0 := by omega
    simp [ht, totalPages]

/-- A paginated window never exceeds the requested page size. -/
lemma slice_length_le (l : List MonitoringResult) (off n : Nat) :
    (((sortByCreatedAtDesc l).drop off).take n).length ≤ n := by
  simp [List.length_take]

/-- Every record of a paginated window comes from the underlying row set. -/
lemma slice_mem (l : List MonitoringResult) (off n : Nat) :
    ∀ r ∈ ((sortByCreatedAtDesc l).drop off).take n, r ∈ l := fun r hr =>
  (List.perm_insertionSort byCreatedAtDesc l).subset
    (((List.take_sublist _ _).trans (List.drop_sublist _ _)).subset hr)

/-- C7: for every store, `page >= 1` and `page_size` in `[1, 100]`, the
listing endpoint reports the full record count, returns the window of the
`created_at`-descending ordering starting at offset
`(page - 1) * page_size`, reports `total_pages = ceil(total / page_size)`
for a non-empty set and 0 for an empty one, and a page beyond `total_pages`
yields an empty result list while `total` and `total_pages` are still
derived from the full record set. -/
theorem C7_listing_pagination (db : Store) (page page_size : Nat)
    (hpage : 1 ≤ page) (hps : 1 ≤ page_size) (hps100 : page_size ≤ 100) :
    (get_monitoring_results db page page_size).total = db.records.length ∧
    (get_monitoring_results db page page_size).results =
      ((sortByCreatedAtDesc db.records).drop ((page - 1) * page_size)).take
        page_size ∧
    (sortByCreatedAtDesc db.records).Perm db.records ∧
    List.Sorted byCreatedAtDesc (get_monitoring_results db page page_size).results ∧
    db.records.length ≤
      (get_monitoring_results db page page_size).total_pages * page_size ∧
    (0 < db.records.length →
      ((get_monitoring_results db page page_size).total_pages - 1) * page_size <
        db.records.length) ∧
    (db.records.length = 0 →
      (get_monitoring_results db page page_size).total_pages = 0) ∧
    ((get_monitoring_results db page page_size).total_pages < page →
      (get_monitoring_results db page page_size).results = []) := by
  have htp : (get_monitoring_results db page page_size).total_pages =
      totalPages db.records.length page_size := rfl
  have hres : (get_monitoring_results db page page_size).results =
      ((sortByCreatedAtDesc db.records).drop ((page - 1) * page_size)).take
        page_size := rfl
  obtain ⟨hb1, hb2, hb3⟩ := totalPages_bounds db.records.length page_size hps
  refine ⟨rfl, rfl, List.perm_insertionSort _ _, ?_, ?_, ?_, ?_, ?_⟩
  · rw [hres]
    exact List.Pairwise.sublist
      ((List.take_sublist _ _).trans (List.drop_sublist _ _))
      (List.sorted_insertionSort byCreatedAtDesc db.records)
  · rw [htp]; exact hb1
  · intro h; rw [htp]; exact hb2 h
  · intro h; rw [htp]; exact hb3 h
  · intro hlt
    rw [htp] at hlt
    have hlen : (sortByCreatedAtDesc db.records).length = db.records.length :=
      (List.perm_insertionSort _ _).length_eq
    have hoff : db.records.length ≤ (page - 1) * page_size :=
      hb1.trans (Nat.mul_le_mul_right _ (by omega))
    rw [hres, List.drop_eq_nil_of_le (by rw [hlen]; exact hoff)]
    simp

/-- Witness for C7: the empty store at page 1, page size 10, reports
`total_pages = 0`. -/
theorem C7_listing_pagination_witness :
    (get_monitoring_results ⟨[], 0⟩ 1 10).total_pages = 0 :=
  (C7_listing_pagination ⟨[], 0⟩ 1 10 (by decide) (by decide)
    (by decide)).2.2.2.2.2.2.1 rfl

/-- C10: every listing operation — plain listing, healthy and unhealthy
filters, and URL-substring search — returns at most `page_size` records,
each of which is an element of the stored record set. -/
theorem C10_listing_window (db : Store) (page page_size : Nat) (url : String)
    (hpage : 1 ≤ page) :
    ((MonitorService.get_all_results db page page_size).1.length ≤ page_size ∧
      ∀ r ∈ (MonitorService.get_all_results db page page_size).1,
        r ∈ db.records) ∧
    ((get_healthy_results db page page_size).results.length ≤ page_size ∧
      ∀ r ∈ (get_healthy_results db page page_size).results, r ∈ db.records) ∧
    ((get_unhealthy_results db page page_size).results.length ≤ page_size ∧
      ∀ r ∈ (get_unhealthy_results db page page_size).results,
        r ∈ db.records) ∧
    ((search_results_by_url db url page page_size).results.length ≤ page_size ∧
      ∀ r ∈ (search_results_by_url db url page page_size).results,
        r ∈ db.records) :=
  ⟨⟨slice_length_le _ _ _, fun r hr => slice_mem _ _ _ r hr⟩,
   ⟨slice_length_le _ _ _,
    fun r hr => List.mem_of_mem_filter (slice_mem _ _ _ r hr)⟩,
   ⟨slice_length_le _ _ _,
    fun r hr => List.mem_of_mem_filter (slice_mem _ _ _ r hr)⟩,
   ⟨slice_length_le _ _ _,
    fun r hr => List.mem_of_mem_filter (slice_mem _ _ _ r hr)⟩⟩

/-- Witness for C10: on a concrete two-record store the search listing
returns at most one record per page of size 1. -/
theorem C10_listing_window_witness :
    (search_results_by_url
      ⟨[{ id := 1, url := "https://www.google.com", status_code := some 200,
          response_time_ms := some 12, is_healthy := true,
          error_message := none, created_at := 0 },
        { id := 2, url := "https://example.com", status_code := some 500,
          response_time_ms := some 7, is_healthy := false,
          error_message := none, created_at := 1 }], 3⟩
      "google" 1 1).results.length ≤ 1 :=
  (C10_listing_window _ 1 1 "google" (by decide)).2.2.2.1

/-- Presence of a truthiness-guarded rounded aggregate: requires a present
value that is nonzero. -/
lemma pyTruthyRound2_isSome (o : Option ℚ) :
    (pyTruthyRound2 o).isSome ↔ o.isSome ∧ o ≠ some 0 := by
  rcases o with _ | x
  · simp [pyTruthyRound2]
  · by_cases hx : x = 0 <;> simp [pyTruthyRound2, hx]

/-- A present truthiness-guarded aggregate is the 2-decimal rounding of the
underlying value. -/
lemma pyTruthyRound2_eq_some (o : Option ℚ) (q : ℚ) :
    pyTruthyRound2 o = some q → ∃ a, o = some a ∧ q = pyRound2 a := by
  rcases o with _ | x
  · simp [pyTruthyRound2]
  · by_cases hx : x = 0
    · simp [pyTruthyRound2, hx]
    · intro h
      refine ⟨x, rfl, ?_⟩
      simpa [pyTruthyRound2, hx] using h.symm

/-- SQL `AVG` is `NULL` exactly on an empty set of qualifying rows. -/
lemma listAvg_eq_none_iff (l : List ℚ) : listAvg l = none ↔ l = [] := by
  cases l <;> simp [listAvg]

/-- SQL `MIN` is `NULL` exactly on an empty set of qualifying rows. -/
lemma listMin_eq_none_iff (l : List ℚ) : listMin l = none ↔ l = [] := by
  cases l with
  | nil => simp [listMin]
  | cons x xs =>
    cases h : listMin xs <;> simp [listMin, h]

/-- SQL `MAX` is `NULL` exactly on an empty set of qualifying rows. -/
lemma listMax_eq_none_iff (l : List ℚ) : listMax l = none ↔ l = [] := by
  cases l with
  | nil => simp [listMax]
  | cons x xs =>
    cases h : listMax xs <;> simp [listMax, h]

/-- Combined behaviour of a stats field of the shape
`pyTruthyRound2 (aggregate lats)`. -/
lemma aggregate_field_spec (f : List ℚ → Option ℚ)
    (hf : ∀ l, f l = none ↔ l = []) (L : List ℚ) :
    ((pyTruthyRound2 (f L)).isSome ↔ L ≠ [] ∧ f L ≠ some 0) ∧
    (∀ q, pyTruthyRound2 (f L) = some q →
      ∃ a, f L = some a ∧ q = pyRound2 a) := by
  refine ⟨?_, pyTruthyRound2_eq_some _⟩
  rw [pyTruthyRound2_isSome, Option.isSome_iff_ne_none]
  simp [hf]

/-- Counterexample to C5 as stated: in `zeroLatencyStore` a record has a
present latency value (`0.0`), yet all three latency aggregates are
reported absent, because `round(x, 2) if x else None` treats `0.0` as
falsy. -/
theorem C5_latency_aggregates_counterexample :
    zeroLatencyStore.records.filterMap (fun r => r.response_time_ms) = [0] ∧
    (get_monitoring_stats zeroLatencyStore).average_response_time_ms = none ∧
    (get_monitoring_stats zeroLatencyStore).fastest_response_ms = none ∧
    (get_monitoring_stats zeroLatencyStore).slowest_response_ms = none := by
  refine ⟨rfl, ?_, ?_, ?_⟩ <;>
    simp [get_monitoring_stats, zeroLatencyStore, listAvg, listMin, listMax,
      pyTruthyRound2]

/-- C5 (amended): the stats endpoint computes average, fastest and slowest
latency over exactly the records whose latency is present, reports each
rounded to 2 decimal places, and reports each as absent iff no record has a
latency value or that aggregate's exact value is `0.0` (Python truthiness
treats `0.0` like `None`). -/
theorem C5_latency_aggregates (db : Store) :
    ((get_monitoring_stats db).average_response_time_ms.isSome ↔
      db.records.filterMap (fun r => r.response_time_ms) ≠ [] ∧
      listAvg (db.records.filterMap (fun r => r.response_time_ms)) ≠ some 0) ∧
    (∀ q, (get_monitoring_stats db).average_response_time_ms = some q →
      ∃ a, listAvg (db.records.filterMap (fun r => r.response_time_ms)) = some a ∧
        q = pyRound2 a) ∧
    ((get_monitoring_stats db).fastest_response_ms.isSome ↔
      db.records.filterMap (fun r => r.response_time_ms) ≠ [] ∧
      listMin (db.records.filterMap (fun r => r.response_time_ms)) ≠ some 0) ∧
    (∀ q, (get_monitoring_stats db).fastest_response_ms = some q →
      ∃ a, listMin (db.records.filterMap (fun r => r.response_time_ms)) = some a ∧
        q = pyRound2 a) ∧
    ((get_monitoring_stats db).slowest_response_ms.isSome ↔
      db.records.filterMap (fun r => r.response_time_ms) ≠ [] ∧
      listMax (db.records.filterMap (fun r => r.response_time_ms)) ≠ some 0) ∧
    (∀ q, (get_monitoring_stats db).slowest_response_ms = some q →
      ∃ a, listMax (db.records.filterMap (fun r => r.response_time_ms)) = some a ∧
        q = pyRound2 a) := by
  rcases db with ⟨records, nid⟩
  cases records with
  | nil =>
    simp [get_monitoring_stats, listAvg, listMin, listMax]
  | cons r t =>
    have havg : (get_monitoring_stats ⟨r :: t, nid⟩).average_response_time_ms =
        pyTruthyRound2
          (listAvg ((r :: t).filterMap (fun x => x.response_time_ms))) := by
      simp [get_monitoring_stats]
    have hmin : (get_monitoring_stats ⟨r :: t, nid⟩).fastest_response_ms =
        pyTruthyRound2
          (listMin ((r :: t).filterMap (fun x => x.response_time_ms))) := by
      simp [get_monitoring_stats]
    have hmax : (get_monitoring_stats ⟨r :: t, nid⟩).slowest_response_ms =
        pyTruthyRound2
          (listMax ((r :: t).filterMap (fun x => x.response_time_ms))) := by
      simp [get_monitoring_stats]
    rw [havg, hmin, hmax]
    exact ⟨(aggregate_field_spec listAvg listAvg_eq_none_iff _).1,
      (aggregate_field_spec listAvg listAvg_eq_none_iff _).2,
      (aggregate_field_spec listMin listMin_eq_none_iff _).1,
      (aggregate_field_spec listMin listMin_eq_none_iff _).2,
      (aggregate_field_spec listMax listMax_eq_none_iff _).1,
      (aggregate_field_spec listMax listMax_eq_none_iff _).2⟩

/-- Witness for C5 (amended): a store with one nonzero latency reports a
present fastest aggregate. -/
theorem C5_latency_aggregates_witness :
    (get_monitoring_stats
      ⟨[{ id := 1, url := "https://b.example", status_code := some 200,
          response_time_ms := some 10, is_healthy := true,
          error_message := none, created_at := 0 }], 2⟩).fastest_response_ms.isSome :=
  (C5_latency_aggregates
    ⟨[{ id := 1, url := "https://b.example", status_code := some 200,
        response_time_ms := some 10, is_healthy := true,
        error_message := none, created_at := 0 }], 2⟩).2.2.1.mpr
    ⟨by decide, by decide⟩

/-- C6: on a store with zero records, the stats endpoint returns the
explicit zero-state — all counts 0, uptime 0.0, every optional aggregate
and `most_monitored_url` absent — rather than a division-by-zero error. -/
theorem C6_stats_zero_state (nextId : Nat) :
    get_monitoring_stats ⟨[], nextId⟩ =
      { total_checks := 0
        healthy_count := 0
        unhealthy_count := 0
        uptime_percentage := 0
        average_response_time_ms := none
        fastest_response_ms := none
        slowest_response_ms := none
        most_monitored_url := none } := rfl
